import Mathlib

/-!
# Verification of the price-calculator pricing engine

Shallow embedding of the pricing, conversion and persistence logic of the
price-calculator repository (src/app.py, src/src/utils.py, src/src/database.py).
Monetary amounts are modelled as rationals (`ℚ`); Python float arithmetic on
these inputs is exact decimal arithmetic at the granularity the claims discuss.
-/

namespace PriceCalc

/-- Settings record (table `settings`, src/src/database.py): a tax rate and the
USD→INR exchange rate. -/
structure Settings where
  tax_rate : ℚ
  usd_to_inr_rate : ℚ
  deriving Repr, DecidableEq

/-- Function `convert_currency` from src/src/utils.py lines 19-24 (the copy in
src/app.py lines 386-397 is the same elif chain): identity when the
currencies coincide, multiply for USD→INR, divide for INR→USD, and
pass-through for every other pair. -/
def convert_currency (amount : ℚ) (from_curr to_curr : String) (rate : ℚ) : ℚ :=
  if from_curr = to_curr then amount
  else if from_curr = "USD" ∧ to_curr = "INR" then amount * rate
  else if from_curr = "INR" ∧ to_curr = "USD" then amount / rate
  else amount

/-- Round-half-to-even of a rational to the nearest integer, the tie-break of
Python's built-in `round`. -/
def round_half_even (q : ℚ) : ℤ :=
  let f := ⌊q⌋
  let r := q - f
  if r < 1/2 then f
  else if 1/2 < r then f + 1
  else if f % 2 = 0 then f else f + 1

/-- Python's `round(x, 2)`: round to two decimal places. -/
def pyRound2 (q : ℚ) : ℚ := (round_half_even (q * 100) : ℚ) / 100

/-- Predicate stating `q` is a two-decimal-place value: one hundred times it is an integer. -/
def isRounded2 (q : ℚ) : Prop := ∃ n : ℤ, q * 100 = (n : ℚ)

/-- Input dictionary of `calculate_final_price` (src/src/utils.py lines 26-41):
three costs with their currencies, a margin with its type (`"%"` or a currency
code), and the target currency. -/
structure FPData where
  price : ℚ
  price_currency : String
  shipping : ℚ
  shipping_currency : String
  import_cost : ℚ
  import_currency : String
  margin : ℚ
  margin_type : String
  final_currency : String
  deriving Repr, DecidableEq

/-- Function `calculate_final_price` from src/src/utils.py lines 26-41 (the copy in
src/app.py lines 399-426 is identical): convert the three costs to the final
currency, sum them, apply the margin (percentage or flat converted amount),
and round the result to two decimals. -/
def calculate_final_price (data : FPData) (settings : Settings) : ℚ :=
  let rate := settings.usd_to_inr_rate
  let final_curr := data.final_currency
  let price := convert_currency data.price data.price_currency final_curr rate
  let shipping := convert_currency data.shipping data.shipping_currency final_curr rate
  let import_cost := convert_currency data.import_cost data.import_currency final_curr rate
  let base := price + shipping + import_cost
  let final :=
    if data.margin_type = "%" then base * (1 + data.margin / 100)
    else base + convert_currency data.margin data.margin_type final_curr rate
  pyRound2 final

/-- The raw inputs of the Item Calculation tab (src/app.py lines 496-535).
`purchase_price` is a number input that may be empty (`value=None`); the
other three amounts come from select boxes that always hold a value. -/
structure CalcInputs where
  item_name : String
  purchase_price : Option ℚ
  purchase_currency : String
  additional_cost : ℚ
  additional_cost_currency : String
  shipping_cost : ℚ
  shipping_currency : String
  delivery_charge_us : ℚ
  deriving Repr, DecidableEq

/-- Quantity `total_inr` as computed in src/app.py lines 537-546: each of purchase
price, additional cost and shipping cost is added only when its currency is
INR (a USD-denominated amount contributes nothing), then the US delivery
charge is added converted at the exchange rate. An empty purchase price
(`None` in the source, guarded by `is not None`) contributes 0, written here
with `Option.getD`; the other two amounts come from select boxes and are
never `None`, so their `is not None` guards are vacuous. -/
def total_inr (i : CalcInputs) (s : Settings) : ℚ :=
  (if i.purchase_currency = "INR" then i.purchase_price.getD 0 else 0)
  + (if i.additional_cost_currency = "INR" then i.additional_cost else 0)
  + (if i.shipping_currency = "INR" then i.shipping_cost else 0)
  + i.delivery_charge_us * s.usd_to_inr_rate

/-- Marketing budget, src/app.py line 550: ten percent of the INR total. -/
def marketing_budget (i : CalcInputs) (s : Settings) : ℚ :=
  total_inr i s * 0.10

/-- Margin tier lookup, src/app.py lines 553-560. -/
def margin_percent (t : ℚ) : ℚ :=
  if t ≤ 5000 then 50
  else if 5000 < t ∧ t ≤ 10000 then 40
  else if 10000 < t then 30
  else 0

/-- Margin value, src/app.py line 561. -/
def margin_value (i : CalcInputs) (s : Settings) : ℚ :=
  total_inr i s * margin_percent (total_inr i s) / 100

/-- Final INR price including budget and margin, src/app.py line 564. -/
def final_inr_with_budget_and_margin (i : CalcInputs) (s : Settings) : ℚ :=
  total_inr i s + marketing_budget i s + margin_value i s

/-- Final USD price, src/app.py line 565: `final / rate if rate else 0.0` —
the guard is Python truthiness of the rate, i.e. `rate ≠ 0`. -/
def final_price_usd (i : CalcInputs) (s : Settings) : ℚ :=
  if s.usd_to_inr_rate = 0 then 0
  else final_inr_with_budget_and_margin i s / s.usd_to_inr_rate

/-- The item record built on form submission, src/app.py lines 579-598, as
handed to `add_item` for persistence. The display string `margin_type`
(`f"{margin_percent}%"`) is carried as the numeric percent. -/
structure ItemData where
  name : String
  price : ℚ
  price_currency : String
  additional_cost : ℚ
  additional_cost_currency : String
  shipping : ℚ
  shipping_currency : String
  delivery_charge_us : ℚ
  marketing_budget : ℚ
  import_cost : ℚ
  import_currency : String
  margin : ℚ
  margin_type_percent : ℚ
  final_currency : String
  final_price : ℚ
  final_price_usd : ℚ
  final_inr_with_budget_and_margin : ℚ
  deriving Repr, DecidableEq

/-- Construction of the stored item from the tab's computed values,
src/app.py lines 579-598: every derived field is stored exactly as computed
(no rounding), `final_price` holds `total_inr`, `import_cost` is fixed to 0
INR and `final_currency` to INR. -/
def mk_item (i : CalcInputs) (s : Settings) : ItemData :=
  { name := i.item_name
    price := i.purchase_price.getD 0
    price_currency := i.purchase_currency
    additional_cost := i.additional_cost
    additional_cost_currency := i.additional_cost_currency
    shipping := i.shipping_cost
    shipping_currency := i.shipping_currency
    delivery_charge_us := i.delivery_charge_us
    marketing_budget := marketing_budget i s
    import_cost := 0
    import_currency := "INR"
    margin := margin_value i s
    margin_type_percent := margin_percent (total_inr i s)
    final_currency := "INR"
    final_price := total_inr i s
    final_price_usd := final_price_usd i s
    final_inr_with_budget_and_margin := final_inr_with_budget_and_margin i s }

/-- Summary subtotal, src/app.py line 688: sum of the stored `final_price`
column over all items (0 on the empty set). -/
def subtotal (items : List ItemData) : ℚ :=
  (items.map (fun it => it.final_price)).sum

/-- Summary tax amount, src/app.py line 689. -/
def tax_amount (items : List ItemData) (s : Settings) : ℚ :=
  subtotal items * (s.tax_rate / 100)

/-- Summary total, src/app.py line 690. -/
def summary_total (items : List ItemData) (s : Settings) : ℚ :=
  subtotal items + tax_amount items s

/-- The analytics tab's "Average Margin" metric, src/app.py line 758:
the arithmetic mean of the stored `margin` column (`pandas .mean()`),
computed only when the item set is nonempty (line 744 returns early). -/
def avg_margin (items : List ItemData) : ℚ :=
  (items.map (fun it => it.margin)).sum / items.length

/-- The spec's formula for normalising one amount to INR (spec §4.2 step 1),
kept separate from the source-derived `total_inr` so the two can be
compared: a USD amount is multiplied by the exchange rate, an INR amount is
taken as-is. -/
def spec_to_inr (a : ℚ) (c : String) (s : Settings) : ℚ :=
  if c = "USD" then a * s.usd_to_inr_rate else a

/-- The spec's formula for the INR total (spec §4.2 steps 1-2), for
comparison with the source-derived `total_inr`: each of the three costs
normalised to INR, plus the US delivery charge converted at the rate. -/
def spec_total_inr (i : CalcInputs) (s : Settings) : ℚ :=
  spec_to_inr (i.purchase_price.getD 0) i.purchase_currency s
  + spec_to_inr i.additional_cost i.additional_cost_currency s
  + spec_to_inr i.shipping_cost i.shipping_currency s
  + i.delivery_charge_us * s.usd_to_inr_rate

/-- A value stored in a database column: text, number, or timestamp. -/
inductive Value where
  | str (s : String)
  | num (q : ℚ)
  | time (t : Nat)
  deriving Repr, DecidableEq

/-- The columns of the `items` table (src/src/database.py lines 21-45). -/
inductive Column where
  | id | name | category
  | price | price_currency
  | additional_cost | additional_cost_currency
  | shipping | shipping_currency
  | delivery_charge_us | marketing_budget
  | import_cost | import_currency
  | margin | margin_type
  | final_currency | final_price | final_price_usd
  | final_inr_with_budget_and_margin
  | created_at | updated_at
  deriving Repr, DecidableEq

/-- A row of the `items` table: a value for each column. -/
def Row := Column → Value

/-- Effect of `SET c = v` on one row. -/
def set_col (r : Row) (c : Column) (v : Value) : Row :=
  fun g => if g = c then v else r g

/-- Effect of `update_item_field`'s SQL on one row (src/src/database.py
line 144): when the row's `id` matches, set the named column to the value
and `updated_at` to the current timestamp; otherwise the row is untouched.
The `WHERE id = ?` test reads the pre-update row. -/
def upd_row (item_id : Value) (c : Column) (v now : Value) (r : Row) : Row :=
  if r Column.id = item_id then set_col (set_col r c v) Column.updated_at now else r

/-- Function `update_item_field` from src/src/database.py lines 138-149, as the
row-level semantics of `UPDATE items SET {field} = ?, updated_at =
CURRENT_TIMESTAMP WHERE id = ?` over the table contents. -/
def update_item_field (db : List Row) (item_id : Value) (c : Column) (v now : Value) :
    List Row :=
  db.map (upd_row item_id c v now)

/-! Concrete test data used by counterexamples and witnesses. -/

/-- The default settings row: tax 8.25 %, rate 83.25 (src/src/database.py
line 64). -/
def default_settings : Settings := { tax_rate := 8.25, usd_to_inr_rate := 83.25 }

/-- An item bought for 100 USD with the default INR select-box costs. -/
def usd_purchase_inputs : CalcInputs :=
  { item_name := "camera", purchase_price := some 100, purchase_currency := "USD",
    additional_cost := 150, additional_cost_currency := "INR",
    shipping_cost := 1000, shipping_currency := "INR", delivery_charge_us := 15 }

/-- The worked scenario of spec §8: 4000 INR purchase, 150 INR additional,
1000 INR shipping, 15 USD delivery. -/
def scenario_inputs : CalcInputs :=
  { item_name := "scenario", purchase_price := some 4000, purchase_currency := "INR",
    additional_cost := 150, additional_cost_currency := "INR",
    shipping_cost := 1000, shipping_currency := "INR", delivery_charge_us := 15 }

/-- An all-INR purchase with no US delivery charge. -/
def inr_only_inputs : CalcInputs :=
  { item_name := "widget", purchase_price := some 100, purchase_currency := "INR",
    additional_cost := 150, additional_cost_currency := "INR",
    shipping_cost := 1000, shipping_currency := "INR", delivery_charge_us := 0 }

/-- A settings row with a negative exchange rate. -/
def negative_rate_settings : Settings := { tax_rate := 8.25, usd_to_inr_rate := -1 }

/-- A settings row with a zero exchange rate. -/
def zero_rate_settings : Settings := { tax_rate := 8.25, usd_to_inr_rate := 0 }

/-! Theorems settling the claims. -/

/-- Claim C1 (code bug): the Item Calculation tab's `total_inr` silently
drops USD-denominated purchase/additional/shipping amounts instead of
converting them at the exchange rate: for a 100 USD purchase with 150 INR
additional cost, 1000 INR shipping and a 15 USD delivery charge at rate
83.25, the code computes 2398.75 while the claimed formula (which converts
the 100 USD) gives 10723.75. -/
theorem c1_total_inr_drops_usd_amounts :
    total_inr usd_purchase_inputs default_settings = 2398.75 ∧
    spec_total_inr usd_purchase_inputs default_settings = 10723.75 ∧
    total_inr usd_purchase_inputs default_settings ≠
      spec_total_inr usd_purchase_inputs default_settings := by
  have h1 : total_inr usd_purchase_inputs default_settings = 2398.75 := by
    simp [total_inr, usd_purchase_inputs, default_settings]
    norm_num
  have h2 : spec_total_inr usd_purchase_inputs default_settings = 10723.75 := by
    simp [spec_total_inr, spec_to_inr, usd_purchase_inputs, default_settings]
    norm_num
  refine ⟨h1, h2, ?_⟩
  rw [h1, h2]
  norm_num

/-- Claim C2 (confirmed): the margin tier lookup is exact at its
boundaries — `t ≤ 5000` yields 50 %, `5000 < t ≤ 10000` yields 40 %
(so 5000.00 yields 50 % and 10000.00 yields 40 %, while 5000.01 yields
40 % and 10000.01 yields 30 %), `t > 10000` yields 30 % — and the margin
value is `total_inr * margin_percent / 100`. -/
theorem c2_margin_tiers (t : ℚ) (i : CalcInputs) (s : Settings) :
    (t ≤ 5000 → margin_percent t = 50) ∧
    (5000 < t → t ≤ 10000 → margin_percent t = 40) ∧
    (10000 < t → margin_percent t = 30) ∧
    margin_percent 5000 = 50 ∧ margin_percent 5000.01 = 40 ∧
    margin_percent 10000 = 40 ∧ margin_percent 10000.01 = 30 ∧
    margin_value i s = total_inr i s * margin_percent (total_inr i s) / 100 := by
  refine ⟨?_, ?_, ?_, ?_, ?_, ?_, ?_, rfl⟩
  · intro h
    rw [margin_percent, if_pos h]
  · intro h1 h2
    rw [margin_percent, if_neg (by linarith), if_pos ⟨h1, h2⟩]
  · intro h
    rw [margin_percent, if_neg (by linarith),
      if_neg (by rintro ⟨hx, hy⟩; linarith), if_pos h]
  · norm_num [margin_percent]
  · norm_num [margin_percent]
  · norm_num [margin_percent]
  · norm_num [margin_percent]

/-- Witness for C2 at the concrete totals 4000, 7000 and 12000. -/
theorem c2_margin_tiers_witness :
    margin_percent 4000 = 50 ∧ margin_percent 7000 = 40 ∧ margin_percent 12000 = 30 :=
  ⟨(c2_margin_tiers 4000 inr_only_inputs default_settings).1 (by norm_num),
   (c2_margin_tiers 7000 inr_only_inputs default_settings).2.1 (by norm_num) (by norm_num),
   (c2_margin_tiers 12000 inr_only_inputs default_settings).2.2.1 (by norm_num)⟩

/-- Helper: `pyRound2` always produces a two-decimal-place value. -/
theorem isRounded2_pyRound2 (q : ℚ) : isRounded2 (pyRound2 q) :=
  ⟨round_half_even (q * 100), by
    rw [pyRound2, div_mul_cancel₀]
    norm_num⟩

/-- Counterexample to claim C3: on the spec §8 scenario (4000 INR + 150 INR
+ 1000 INR + 15 USD at rate 83.25, total 6398.75) the stored
`marketing_budget` is 639.875, a three-decimal value, so it is not rounded
to 2 decimal places before being handed to the store. -/
theorem c3_stored_budget_not_rounded :
    (mk_item scenario_inputs default_settings).marketing_budget = 639.875 ∧
    ¬ isRounded2 (mk_item scenario_inputs default_settings).marketing_budget := by
  have h : (mk_item scenario_inputs default_settings).marketing_budget = 639.875 := by
    show marketing_budget scenario_inputs default_settings = 639.875
    simp [marketing_budget, total_inr, scenario_inputs, default_settings]
    norm_num
  refine ⟨h, ?_⟩
  rw [h]
  rintro ⟨n, hn⟩
  have h2 : (2 * n : ℤ) = 127975 := by
    have hq : (n : ℚ) = 127975 / 2 := by rw [← hn]; norm_num
    have : ((2 * n : ℤ) : ℚ) = 127975 := by push_cast; rw [hq]; ring
    exact_mod_cast this
  omega

/-- Claim C3 amended (corrected): the derived fields of the stored item are
persisted exactly as computed, with no rounding applied (in particular the
marketing budget is exactly `total_inr * 0.10`); only `calculate_final_price`
— which the storing path never calls — rounds its result to 2 decimal
places. -/
theorem c3_stored_fields_unrounded (i : CalcInputs) (s : Settings)
    (d : FPData) (st : Settings) :
    (mk_item i s).final_price = total_inr i s ∧
    (mk_item i s).marketing_budget = total_inr i s * 0.10 ∧
    (mk_item i s).margin = margin_value i s ∧
    (mk_item i s).final_inr_with_budget_and_margin =
      total_inr i s + marketing_budget i s + margin_value i s ∧
    (mk_item i s).final_price_usd = final_price_usd i s ∧
    isRounded2 (calculate_final_price d st) :=
  ⟨rfl, rfl, rfl, rfl, rfl, isRounded2_pyRound2 _⟩

/-- Counterexample to claim C4: with a negative exchange rate (-1) the code
divides by the rate instead of resolving `final_price_usd` to 0 — on an
all-INR purchase totalling 1250 INR it returns -2000. -/
theorem c4_negative_rate_divides :
    negative_rate_settings.usd_to_inr_rate ≤ 0 ∧
    final_price_usd inr_only_inputs negative_rate_settings = -2000 ∧
    final_price_usd inr_only_inputs negative_rate_settings ≠ 0 := by
  have h : final_price_usd inr_only_inputs negative_rate_settings = -2000 := by
    have ht : total_inr inr_only_inputs negative_rate_settings = 1250 := by
      simp [total_inr, inr_only_inputs, negative_rate_settings]
      norm_num
    have hp : margin_percent (total_inr inr_only_inputs negative_rate_settings) = 50 := by
      rw [ht]; norm_num [margin_percent]
    rw [final_price_usd, if_neg (by norm_num [negative_rate_settings]),
      final_inr_with_budget_and_margin, marketing_budget, margin_value, hp, ht]
    norm_num [negative_rate_settings]
  exact ⟨by norm_num [negative_rate_settings], h, by rw [h]; norm_num⟩

/-- Claim C4 amended (corrected): the division guard is Python truthiness of
the rate — a zero rate resolves `final_price_usd` to 0; any nonzero rate
(negative included) yields the exact quotient
`final_inr_with_budget_and_margin / rate`; no division is ever attempted at
rate 0, so no division fault can occur. -/
theorem c4_rate_guard (i : CalcInputs) (s : Settings) :
    (s.usd_to_inr_rate = 0 → final_price_usd i s = 0) ∧
    (s.usd_to_inr_rate ≠ 0 →
      final_price_usd i s * s.usd_to_inr_rate = final_inr_with_budget_and_margin i s) := by
  constructor
  · intro h
    rw [final_price_usd, if_pos h]
  · intro h
    rw [final_price_usd, if_neg h, div_mul_cancel₀ _ h]

/-- Witness for C4 at the zero-rate settings and the default settings. -/
theorem c4_rate_guard_witness :
    final_price_usd inr_only_inputs zero_rate_settings = 0 ∧
    final_price_usd inr_only_inputs default_settings * default_settings.usd_to_inr_rate =
      final_inr_with_budget_and_margin inr_only_inputs default_settings :=
  ⟨(c4_rate_guard inr_only_inputs zero_rate_settings).1 (by norm_num [zero_rate_settings]),
   (c4_rate_guard inr_only_inputs default_settings).2 (by norm_num [default_settings])⟩

/-- Claim C5 (confirmed): the stored marketing budget is exactly ten percent
of the stored base INR total (`final_price`, which holds `total_inr`), and
the stored final INR price is the base total plus marketing budget plus
margin value. -/
theorem c5_budget_and_final_formula (i : CalcInputs) (s : Settings) :
    (mk_item i s).marketing_budget = (mk_item i s).final_price * 0.10 ∧
    (mk_item i s).final_inr_with_budget_and_margin =
      (mk_item i s).final_price + (mk_item i s).marketing_budget + (mk_item i s).margin :=
  ⟨rfl, rfl⟩

/-- A stored item whose base total (200) differs from its margin value (50),
separating the two candidate average-margin formulas. -/
def high_price_item : ItemData :=
  { name := "gadget", price := 200, price_currency := "INR",
    additional_cost := 0, additional_cost_currency := "INR",
    shipping := 0, shipping_currency := "INR", delivery_charge_us := 0,
    marketing_budget := 20, import_cost := 0, import_currency := "INR",
    margin := 50, margin_type_percent := 25, final_currency := "INR",
    final_price := 200, final_price_usd := 2,
    final_inr_with_budget_and_margin := 270 }

/-- Counterexample to claim C6: on a single item with base total 200 and
margin value 50, the analytics average-margin metric is the mean of the
margin column, 50, while the claimed formula `(Σ marginValue) / subtotal *
100` gives 25 — the code does not compute the claimed quantity. -/
theorem c6_avg_margin_formula_differs :
    avg_margin [high_price_item] = 50 ∧
    subtotal [high_price_item] = 200 ∧
    ([high_price_item].map (fun it => it.margin)).sum / subtotal [high_price_item] * 100
      = 25 ∧
    avg_margin [high_price_item] ≠
      ([high_price_item].map (fun it => it.margin)).sum / subtotal [high_price_item] * 100 := by
  have h1 : avg_margin [high_price_item] = 50 := by
    simp [avg_margin, high_price_item]
  have h2 : subtotal [high_price_item] = 200 := by
    simp [subtotal, high_price_item]
  have h3 : ([high_price_item].map (fun it => it.margin)).sum / subtotal [high_price_item]
      * 100 = 25 := by
    rw [h2]
    simp [high_price_item]
    norm_num
  refine ⟨h1, h2, h3, ?_⟩
  rw [h1, h3]
  norm_num

/-- Claim C6 amended (corrected): the Item Calculation tab's summary computes
`taxAmount = subtotal * taxRatePercent / 100` and `total = subtotal +
taxAmount`, and on the empty item set returns subtotal = 0, taxAmount = 0,
total = 0 without error; the analytics tab's average-margin metric is the
arithmetic mean of the stored margin values (on one item, that item's
margin), not `(Σ marginValue) / subtotal * 100`, and is only shown for a
nonempty item set. -/
theorem c6_summary_formulas (items : List ItemData) (s : Settings) (it : ItemData) :
    tax_amount items s = subtotal items * s.tax_rate / 100 ∧
    summary_total items s = subtotal items + tax_amount items s ∧
    subtotal [] = 0 ∧
    tax_amount [] s = 0 ∧
    summary_total [] s = 0 ∧
    avg_margin [it] = it.margin := by
  refine ⟨?_, rfl, rfl, ?_, ?_, ?_⟩
  · rw [tax_amount, mul_div_assoc]
  · simp [tax_amount, subtotal]
  · simp [summary_total, tax_amount, subtotal]
  · simp [avg_margin]

/-- A database row with id "a". -/
def row_a : Row := fun c => if c = Column.id then Value.str "a" else Value.num 0

/-- A database row with id "b". -/
def row_b : Row := fun c => if c = Column.id then Value.str "b" else Value.num 1

/-- Claim C7 (confirmed): `update_item_field` maps every row of the table
through `upd_row`; a row whose id differs from the target is returned
unchanged (and stays in the table), and on the row whose id matches, every
column other than the named one and `updated_at` keeps its value while the
named column receives the new value. -/
theorem c7_update_item_field_frame (db : List Row) (item_id v now : Value)
    (c g : Column) (r q : Row) (hr : r ∈ db) (hrid : r Column.id ≠ item_id)
    (hqid : q Column.id = item_id) (hgc : g ≠ c) (hgu : g ≠ Column.updated_at)
    (hcu : c ≠ Column.updated_at) :
    update_item_field db item_id c v now = db.map (upd_row item_id c v now) ∧
    upd_row item_id c v now r = r ∧
    r ∈ update_item_field db item_id c v now ∧
    upd_row item_id c v now q g = q g ∧
    upd_row item_id c v now q c = v := by
  have hfix : upd_row item_id c v now r = r := by
    rw [upd_row, if_neg hrid]
  refine ⟨rfl, hfix, ?_, ?_, ?_⟩
  · rw [update_item_field]
    exact hfix ▸ List.mem_map_of_mem (upd_row item_id c v now) hr
  · simp only [upd_row, if_pos hqid, set_col]
    rw [if_neg hgu, if_neg hgc]
  · simp only [upd_row, if_pos hqid, set_col]
    rw [if_neg hcu]
    simp

/-- Witness for C7: updating the `price` column of the row with id "b" in a
two-row table leaves the row with id "a" untouched and the `name` column of
row "b" untouched, while `price` receives the new value. -/
theorem c7_update_item_field_frame_witness :
    update_item_field [row_a, row_b] (Value.str "b") Column.price (Value.num 5) (Value.time 1)
      = [row_a, row_b].map (upd_row (Value.str "b") Column.price (Value.num 5) (Value.time 1)) ∧
    upd_row (Value.str "b") Column.price (Value.num 5) (Value.time 1) row_a = row_a ∧
    row_a ∈ update_item_field [row_a, row_b] (Value.str "b") Column.price (Value.num 5)
      (Value.time 1) ∧
    upd_row (Value.str "b") Column.price (Value.num 5) (Value.time 1) row_b Column.name
      = row_b Column.name ∧
    upd_row (Value.str "b") Column.price (Value.num 5) (Value.time 1) row_b Column.price
      = Value.num 5 :=
  c7_update_item_field_frame [row_a, row_b] (Value.str "b") (Value.num 5) (Value.time 1)
    Column.price Column.name row_a row_b (by simp) (by decide) (by decide)
    (by decide) (by decide) (by decide)

/-- Claim C8 (confirmed): converting an amount USD→INR and back INR→USD at
the same positive rate returns the amount exactly (the conversions perform
no rounding, so the round trip is exact, within any rounding tolerance). -/
theorem c8_convert_round_trip (amount rate : ℚ) (h : 0 < rate) :
    convert_currency (convert_currency amount "USD" "INR" rate) "INR" "USD" rate
      = amount := by
  simp [convert_currency]
  exact mul_div_cancel_right₀ amount h.ne'

/-- Witness for C8 at amount 7 and rate 83.25. -/
theorem c8_convert_round_trip_witness :
    (0 : ℚ) < 83.25 ∧
    convert_currency (convert_currency 7 "USD" "INR" 83.25) "INR" "USD" 83.25 = 7 :=
  ⟨by norm_num, c8_convert_round_trip 7 83.25 (by norm_num)⟩

/-- Claim C9 (confirmed): `convert_currency` is the identity when the two
currency codes coincide, and passes the amount through unchanged for every
pair other than USD→INR and INR→USD. -/
theorem c9_convert_identity_passthrough (amount rate : ℚ) (fc tc : String) :
    (fc = tc → convert_currency amount fc tc rate = amount) ∧
    (¬(fc = "USD" ∧ tc = "INR") → ¬(fc = "INR" ∧ tc = "USD") →
      convert_currency amount fc tc rate = amount) := by
  constructor
  · intro h
    rw [convert_currency, if_pos h]
  · intro h1 h2
    by_cases ht : fc = tc
    · rw [convert_currency, if_pos ht]
    · rw [convert_currency, if_neg ht, if_neg h1, if_neg h2]

/-- Witness for C9: identity on EUR→EUR and pass-through on EUR→GBP. -/
theorem c9_convert_identity_passthrough_witness :
    convert_currency 5 "EUR" "EUR" 83 = 5 ∧ convert_currency 5 "EUR" "GBP" 83 = 5 :=
  ⟨(c9_convert_identity_passthrough 5 83 "EUR" "EUR").1 rfl,
   (c9_convert_identity_passthrough 5 83 "EUR" "GBP").2 (by simp) (by simp)⟩

/-- The INR total is non-negative when every input amount and the exchange
rate are non-negative. -/
theorem total_inr_nonneg (i : CalcInputs) (s : Settings)
    (h1 : 0 ≤ i.purchase_price.getD 0) (h2 : 0 ≤ i.additional_cost)
    (h3 : 0 ≤ i.shipping_cost) (h4 : 0 ≤ i.delivery_charge_us)
    (h5 : 0 ≤ s.usd_to_inr_rate) : 0 ≤ total_inr i s := by
  rw [total_inr]
  have a1 : (0:ℚ) ≤ if i.purchase_currency = "INR" then i.purchase_price.getD 0 else 0 := by
    split_ifs <;> simp [h1]
  have a2 : (0:ℚ) ≤ if i.additional_cost_currency = "INR" then i.additional_cost else 0 := by
    split_ifs <;> simp [h2]
  have a3 : (0:ℚ) ≤ if i.shipping_currency = "INR" then i.shipping_cost else 0 := by
    split_ifs <;> simp [h3]
  exact add_nonneg (add_nonneg (add_nonneg a1 a2) a3) (mul_nonneg h4 h5)

/-- The margin tier always yields a non-negative percentage. -/
theorem margin_percent_nonneg (t : ℚ) : 0 ≤ margin_percent t := by
  rw [margin_percent]
  split_ifs <;> norm_num

/-- Claim C10 (confirmed): the stored `final_price` column holds the base
INR total (not the final resale price), the stored final INR price equals
`final_price + marketing_budget + margin`, and under non-negative inputs and
rate the base total never exceeds the final price. -/
theorem c10_final_price_invariant (i : CalcInputs) (s : Settings)
    (h1 : 0 ≤ i.purchase_price.getD 0) (h2 : 0 ≤ i.additional_cost)
    (h3 : 0 ≤ i.shipping_cost) (h4 : 0 ≤ i.delivery_charge_us)
    (h5 : 0 ≤ s.usd_to_inr_rate) :
    (mk_item i s).final_price = total_inr i s ∧
    (mk_item i s).final_inr_with_budget_and_margin =
      (mk_item i s).final_price + (mk_item i s).marketing_budget + (mk_item i s).margin ∧
    (mk_item i s).final_price ≤ (mk_item i s).final_inr_with_budget_and_margin := by
  have ht := total_inr_nonneg i s h1 h2 h3 h4 h5
  have hm := margin_percent_nonneg (total_inr i s)
  refine ⟨rfl, rfl, ?_⟩
  show total_inr i s ≤ final_inr_with_budget_and_margin i s
  rw [final_inr_with_budget_and_margin, marketing_budget, margin_value]
  have hb : 0 ≤ total_inr i s * 0.10 := mul_nonneg ht (by norm_num)
  have hv : 0 ≤ total_inr i s * margin_percent (total_inr i s) / 100 :=
    div_nonneg (mul_nonneg ht hm) (by norm_num)
  linarith

/-- Witness for C10 on the spec §8 scenario inputs at the default settings. -/
theorem c10_final_price_invariant_witness :
    (mk_item scenario_inputs default_settings).final_price =
      total_inr scenario_inputs default_settings ∧
    (mk_item scenario_inputs default_settings).final_inr_with_budget_and_margin =
      (mk_item scenario_inputs default_settings).final_price +
        (mk_item scenario_inputs default_settings).marketing_budget +
        (mk_item scenario_inputs default_settings).margin ∧
    (mk_item scenario_inputs default_settings).final_price ≤
      (mk_item scenario_inputs default_settings).final_inr_with_budget_and_margin :=
  c10_final_price_invariant scenario_inputs default_settings
    (by norm_num [scenario_inputs]) (by norm_num [scenario_inputs])
    (by norm_num [scenario_inputs]) (by norm_num [scenario_inputs])
    (by norm_num [default_settings])

end PriceCalc
